import Mathlib

/-!
Verification development for the rabbit-communications library.

The JavaScript sources are shallowly embedded: metadata objects become
association lists with last-binding-wins lookup (mirroring JS object
spread), handler invocations become abstract ok/err results, the broker
acknowledgment calls become an explicit action value, and the
single-threaded event-loop interleaving of consume callbacks and timer
callbacks becomes an explicit event list processed in order.
-/

set_option maxRecDepth 4000

/-- Metadata values as they occur on the wire (JSON scalars). -/
inductive MetaVal where
  | str (s : String)
  | bool (b : Bool)
  | num (n : Nat)
deriving DecidableEq, Repr

/-- A JS object holding metadata: an association list in insertion order.
Object spread `\x7b...a, ...b\x7d` is embedded as `a ++ b`: for a duplicated
key the later binding wins, which `mget` below implements. -/
abbrev Metadata := List (String × MetaVal)

/-- Property lookup on a metadata object: the last binding of the key wins,
`none` plays the role of JS `undefined`. -/
def mget (m : Metadata) (k : String) : Option MetaVal :=
  m.foldl (fun acc kv => if kv.1 = k then some kv.2 else acc) none

/-- JS truthiness of a possibly-absent metadata value
(used for the `metadata.ask` test in Service.start). -/
def isTruthy : Option MetaVal → Bool
  | none => false
  | some (.str s) => s ≠ ""
  | some (.bool b) => b
  | some (.num n) => n ≠ 0

/-- JS string coercion applied when a value is used as an object key
(`this.askListenersMap[metadata.subject]`, `this.askMap[metadata.isReplyTo]`). -/
def keyStr : MetaVal → String
  | .str s => s
  | .bool b => if b then "true" else "false"
  | .num n => toString n

/-- The wire envelope `\x7b metadata, data \x7d` published to and parsed from the
broker. -/
structure Envelope where
  metadata : Metadata
  data : MetaVal
deriving DecidableEq, Repr

/- Lemmas about metadata lookup under append (object spread). -/

theorem mget_foldl_init (b : Metadata) (k : String) (init : Option MetaVal) :
    b.foldl (fun acc kv => if kv.1 = k then some kv.2 else acc) init
      = match mget b k with
        | some v => some v
        | none => init := by
  induction b generalizing init with
  | nil => simp [mget]
  | cons kv rest ih =>
    simp only [mget, List.foldl_cons]
    rw [ih, ih]
    cases h : mget rest k <;> by_cases hk : kv.1 = k <;> simp [h, hk]

theorem mget_append (a b : Metadata) (k : String) :
    mget (a ++ b) k
      = match mget b k with
        | some v => some v
        | none => mget a k := by
  simp only [mget, List.foldl_append]
  exact mget_foldl_init b k _

theorem mget_singleton_append (a : Metadata) (k : String) (v : MetaVal) :
    mget (a ++ [(k, v)]) k = some v := by
  rw [mget_append]
  simp [mget]

theorem mget_append_ne (a : Metadata) (k k' : String) (v : MetaVal)
    (h : k' ≠ k) : mget (a ++ [(k', v)]) k = mget a k := by
  rw [mget_append]
  simp [mget, h]

/-!
Topology Resolver, from the Service constructor
(`this.inputQueueName = ...` in CommunicatorManager.js) and the
Communicator constructor (index.js): queue names are string
concatenations of the identity, nothing else.
-/

/-- Owner side: Service constructor, `this.inputQueueName`. -/
def serviceInputQueueName (nspace name : String) : String :=
  nspace ++ ":" ++ name ++ ":input"

/-- Owner side: Service constructor, `this.outputQueueName`. -/
def serviceOutputQueueName (nspace name : String) : String :=
  nspace ++ ":" ++ name ++ ":output"

/-- Peer side: Communicator constructor, `this.inputQueueName`
(the identity component is called `targetServiceName` there). -/
def communicatorInputQueueName (nspace targetServiceName : String) : String :=
  nspace ++ ":" ++ targetServiceName ++ ":input"

/-- Peer side: Communicator constructor, `this.outputQueueName`. -/
def communicatorOutputQueueName (nspace targetServiceName : String) : String :=
  nspace ++ ":" ++ targetServiceName ++ ":output"

/-!
Communicator.send (index.js): generates `messageId = nanoid(10)`, merges
`\x7b ...this.metadata, ...additionalMetadata, messageId \x7d`, publishes the
envelope and returns the generated id. The external nanoid library is
embedded as the generated value `freshId` together with its documented
contract that `nanoid(10)` returns a string of length 10.
-/

/-- The metadata object built by Communicator.send. -/
def sendMetadata (defaults additional : Metadata) (freshId : String) : Metadata :=
  defaults ++ additional ++ [("messageId", .str freshId)]

/-- Communicator.send, as the published envelope and the returned value. -/
def communicatorSendEnvelope (defaults additional : Metadata) (freshId : String)
    (d : MetaVal) : Envelope × String :=
  ({ metadata := sendMetadata defaults additional freshId, data := d }, freshId)

/-- The per-call metadata that Communicator.ask passes to send:
`\x7b ...additionalMetadata, ask: true, subject \x7d`. -/
def askCallMetadata (additional : Metadata) (subject : String) : Metadata :=
  additional ++ [("ask", .bool true), ("subject", .str subject)]

/-!
Owner Endpoint: the Service input consume callback
(Service.start in CommunicatorManager.js).  The user-supplied handlers
are embedded by their observable outcome: `ok` for a call that returns
normally, `err` for a call that throws or rejects (including the JS
TypeError raised when `this.inputListener` is not a function).
-/

/-- Outcome of invoking a user handler. -/
inductive HRes where
  | ok
  | err
deriving DecidableEq, Repr

/-- Broker acknowledgment action taken by a consume callback for one
message.  `noAction` records the early `return` in the ask-handler path
of Service.start, which leaves the message neither acked nor nacked. -/
inductive ConsumeAction where
  | ack
  | nack (requeue : Bool)
  | noAction
deriving DecidableEq, Repr

/-- Which handler the consume callback dispatched to.  `noHandler` covers
the paths that throw before reaching a user handler (unregistered ask
subject, or a missing general input listener). -/
inductive Dispatched where
  | askHandler (subject : String)
  | inputHandler
  | noHandler
deriving DecidableEq, Repr

/-- The Service state observed by its input consume callback. -/
structure ServiceState where
  /-- keys of `this.askListenersMap` (subjects with a registered ask listener) -/
  askSubjects : List String
  /-- whether `typeof this.inputListener` is a function -/
  hasInputListener : Bool
  shouldDiscardMessages : Bool
deriving DecidableEq, Repr

/-- The input consume callback of Service.start, for one parsed message.
`askResult s` is the outcome of `askListener(ctx)` for the listener
registered under subject `s`; `inputResult` the outcome of
`this.inputListener(ctx)`.  Mirrors the source line by line:
the ask branch is taken when `metadata.ask` is truthy and
`metadata.subject` is not undefined; a missing ask listener throws
(caught by the surrounding try, hence nack); a successful ask listener
is followed by `return` with no ack; the general path acks on success;
the catch block nacks with `requeue = not shouldDiscardMessages`. -/
def serviceConsume (st : ServiceState) (askResult : String → HRes)
    (inputResult : HRes) (meta : Metadata) : Dispatched × ConsumeAction :=
  if isTruthy (mget meta "ask") && (mget meta "subject").isSome then
    let s := keyStr ((mget meta "subject").getD (.str ""))
    if st.askSubjects.contains s then
      match askResult s with
      | .ok => (.askHandler s, .noAction)
      | .err => (.askHandler s, .nack (!st.shouldDiscardMessages))
    else
      (.noHandler, .nack (!st.shouldDiscardMessages))
  else if st.hasInputListener then
    match inputResult with
    | .ok => (.inputHandler, .ack)
    | .err => (.inputHandler, .nack (!st.shouldDiscardMessages))
  else
    (.noHandler, .nack (!st.shouldDiscardMessages))

/-!
Constructor validation.

Service constructor (CommunicatorManager.js) and Communicator
constructor (index.js).  JS falsiness of the identity string (undefined
or empty) is embedded on `Option String`.  `rabbitClient` and
`rabbitOptions` only matter by presence.  The checks appear in source
order; an `Except.error` is a synchronous throw.  Neither constructor
performs any broker operation: the success value is just the computed
endpoint configuration.
-/

/-- JS falsiness of an optional string setting. -/
def falsyStr : Option String → Bool
  | none => true
  | some s => s = ""

structure ServiceSettings where
  name : Option String
  hasRabbitClient : Bool
  hasRabbitOptions : Bool
  isInputEnabled : Bool
  isOutputEnabled : Bool
  shouldDiscardMessages : Bool
  nspace : String
deriving DecidableEq, Repr

structure ServiceCfg where
  isInputEnabled : Bool
  isOutputEnabled : Bool
  shouldDiscardMessages : Bool
  inputQueueName : String
  outputQueueName : String
deriving DecidableEq, Repr

/-- Service constructor: validation checks in source order, then the
field assignments (queue names via the topology functions). -/
def serviceConstruct (s : ServiceSettings) : Except String ServiceCfg :=
  if falsyStr s.name then
    .error "Service name is required"
  else if !s.isInputEnabled && !s.isOutputEnabled then
    .error "Both input and output cannot be disabled"
  else if !s.hasRabbitClient && !s.hasRabbitOptions then
    .error "rabbitClient or rabbitOptions is required"
  else if !s.isInputEnabled && s.shouldDiscardMessages then
    .error "shouldDiscardMessages is meaningless with input disabled"
  else
    .ok { isInputEnabled := s.isInputEnabled
          isOutputEnabled := s.isOutputEnabled
          shouldDiscardMessages := s.shouldDiscardMessages
          inputQueueName := serviceInputQueueName s.nspace (s.name.getD "")
          outputQueueName := serviceOutputQueueName s.nspace (s.name.getD "") }

structure CommunicatorSettings where
  targetServiceName : Option String
  hasRabbitClient : Bool
  hasRabbitOptions : Bool
  useAsk : Bool
  isInputEnabled : Bool
  isOutputEnabled : Bool
  shouldDiscardMessages : Bool
  nspace : String
deriving DecidableEq, Repr

structure CommunicatorCfg where
  isInputEnabled : Bool
  isOutputEnabled : Bool
  shouldDiscardMessages : Bool
  inputQueueName : String
  outputQueueName : String
deriving DecidableEq, Repr

/-- Communicator constructor (index.js): validation checks in source
order.  Note two source facts embedded verbatim: the disabled-channels
checks use the raw settings, before the `useAsk` override of
`isInputEnabled`/`isOutputEnabled`; and the shouldDiscardMessages guard
tests `!isInputEnabled` even though its error message speaks of the
output channel being disabled (the output queue is the one this
endpoint consumes and the only place shouldDiscardMessages is used). -/
def communicatorConstruct (s : CommunicatorSettings) : Except String CommunicatorCfg :=
  if falsyStr s.targetServiceName then
    .error "Target service name is required"
  else if !s.isInputEnabled && !s.isOutputEnabled then
    .error "Both input and output cannot be disabled"
  else if !s.hasRabbitClient && !s.hasRabbitOptions then
    .error "rabbitClient or rabbitOptions is required"
  else if !s.isInputEnabled && s.shouldDiscardMessages then
    .error "no point to set shouldDiscardMessages if output is disabled"
  else
    .ok { isInputEnabled := s.useAsk || s.isInputEnabled
          isOutputEnabled := s.useAsk || s.isOutputEnabled
          shouldDiscardMessages := s.shouldDiscardMessages
          inputQueueName := communicatorInputQueueName s.nspace (s.targetServiceName.getD "")
          outputQueueName := communicatorOutputQueueName s.nspace (s.targetServiceName.getD "") }

/-!
ControllablePromise (utils/ControllablePromise.js).  A JS promise settles
at most once: once resolved or rejected, later calls to the executor
resolve/reject functions are no-ops.  `setResolveTimeout` arms a one-shot
timer whose callback calls the raw reject; the wrapped `resolve` and
`reject` first clear the timer and then settle.
-/

inductive PState where
  | pending
  | resolved (v : Envelope)
  | rejected (msg : String)
deriving DecidableEq, Repr

structure CPromise where
  state : PState
  timerArmed : Bool
  timerMsg : String
deriving DecidableEq, Repr

/-- A freshly constructed ControllablePromise. -/
def CPromise.new : CPromise :=
  { state := .pending, timerArmed := false, timerMsg := "" }

/-- Source `promise.setResolveTimeout(ms, message)`: arm the timer. -/
def CPromise.setResolveTimeout (p : CPromise) (msg : String) : CPromise :=
  { p with timerArmed := true, timerMsg := msg }

/-- The armed timer fires: `setTimeout` callback calls the raw `reject`,
which settles the promise only if it is still pending; the timer is
one-shot.  A timer that was cleared (disarmed) does not fire. -/
def CPromise.timerFire (p : CPromise) : CPromise :=
  if p.timerArmed then
    { p with
      state := match p.state with
               | .pending => .rejected p.timerMsg
               | s => s
      timerArmed := false }
  else p

/-- Source `promise.resolve(value)`: `clearTimeout` then the raw `resolve`,
which settles the promise only if it is still pending. -/
def CPromise.presolve (p : CPromise) (v : Envelope) : CPromise :=
  { p with
    state := match p.state with
             | .pending => .resolved v
             | s => s
    timerArmed := false }

/-- The rejection message built in Communicator.ask for askTimeout `t`. -/
def askTimeoutMessage (t : Nat) : String :=
  "The service did not respond within the allowed " ++ toString t ++ " milliseconds"

/-!
Peer Endpoint: Communicator.ask and the output consume callback
(Communicator.start in index.js), embedded as a state machine.  The
state keeps every promise created by ask (keyed by its messageId, which
the caller of ask holds on to) separately from the set of messageIds
currently present in `this.askMap`, since `delete this.askMap[id]`
removes the table entry but not the promise object.  The JS event loop
serialises the output-queue consume callbacks and the timer callbacks;
a run of the machine is that serialisation, one `CommEvent` per
callback invocation.
-/

structure CommState where
  /-- every ControllablePromise created by ask, keyed by its messageId -/
  promises : List (String × CPromise)
  /-- the messageIds currently present in `this.askMap` -/
  askMap : List String
  shouldDiscardMessages : Bool
deriving DecidableEq, Repr

/-- Lookup of a promise by messageId (JS object property read). -/
def getPromise : List (String × CPromise) → String → Option CPromise
  | [], _ => none
  | kv :: rest, k => if kv.1 = k then some kv.2 else getPromise rest k

/-- Apply `f` to the promise stored under key `k`
(JS method call on the object stored at that property). -/
def updPromise : List (String × CPromise) → String → (CPromise → CPromise) →
    List (String × CPromise)
  | [], _, _ => []
  | kv :: rest, k, f =>
      (if kv.1 = k then (kv.1, f kv.2) else kv) :: updPromise rest k f

/-- One event-loop callback relevant to the Communicator:
a message consumed from the output queue, or an ask timer firing. -/
inductive CommEvent where
  | deliver (env : Envelope)
  | timerFire (id : String)
deriving DecidableEq, Repr

/-- One callback invocation, mirroring the consume callback in
Communicator.start and the `setResolveTimeout` timer callback.
For a delivered message: if `metadata.isReplyTo` is not undefined and
the askMap has the entry, the promise is resolved with the parsed
message and the entry deleted, then the message is acked; if the entry
is missing, `this.askMap[...].resolve` is a TypeError, caught by the
try/catch, hence nack; otherwise the message goes to `outputListener`
and is acked on success, nacked on failure, with
`requeue = not shouldDiscardMessages` in every nack. -/
def commStep (outputResult : Envelope → HRes) (st : CommState)
    (e : CommEvent) : CommState × ConsumeAction :=
  match e with
  | .timerFire id =>
      ({ st with promises := updPromise st.promises id CPromise.timerFire }, .noAction)
  | .deliver env =>
      match mget env.metadata "isReplyTo" with
      | some v =>
          let k := keyStr v
          if st.askMap.contains k then
            ({ st with
               promises := updPromise st.promises k (fun p => p.presolve env)
               askMap := st.askMap.erase k }, .ack)
          else
            (st, .nack (!st.shouldDiscardMessages))
      | none =>
          match outputResult env with
          | .ok => (st, .ack)
          | .err => (st, .nack (!st.shouldDiscardMessages))

/-- Run a sequence of event-loop callbacks. -/
def commRun (outputResult : Envelope → HRes) (st : CommState)
    (es : List CommEvent) : CommState :=
  es.foldl (fun s e => (commStep outputResult s e).1) st

/-- Communicator.ask (index.js): create a ControllablePromise, send the
request (the envelope built from `askCallMetadata` plus the stamped
messageId), arm the resolve timeout, and register the promise in
`this.askMap` under the generated messageId.  Returns the new state and
the published envelope. -/
def askIssue (defaults additional : Metadata) (subject : String) (d : MetaVal)
    (freshId : String) (askTimeout : Nat) (st : CommState) : CommState × Envelope :=
  let sent := communicatorSendEnvelope defaults (askCallMetadata additional subject) freshId d
  let p := CPromise.new.setResolveTimeout (askTimeoutMessage askTimeout)
  ({ st with
     promises := st.promises ++ [(freshId, p)]
     askMap := freshId :: st.askMap }, sent.1)

/-- The initial Communicator state: empty askMap, no promises. -/
def commInit (shouldDiscardMessages : Bool) : CommState :=
  { promises := [], askMap := [], shouldDiscardMessages := shouldDiscardMessages }

/-- Does an event touch the ask entry `id`: its timer firing, or a
delivered message whose isReplyTo key equals `id`. -/
def isTimerFor (id : String) : CommEvent → Bool
  | .timerFire k => k = id
  | .deliver _ => false

def isReplyFor (id : String) : CommEvent → Bool
  | .timerFire _ => false
  | .deliver env =>
      match mget env.metadata "isReplyTo" with
      | some v => keyStr v = id
      | none => false

/- Lemmas about the promise table and the askMap. -/

theorem getPromise_updPromise_ne (ps : List (String × CPromise)) (k id : String)
    (f : CPromise → CPromise) (h : k ≠ id) :
    getPromise (updPromise ps k f) id = getPromise ps id := by
  induction ps with
  | nil => rfl
  | cons kv rest ih =>
    have hik : ¬ id = k := fun hc => h hc.symm
    by_cases hk : kv.1 = k
    · have hne : ¬ kv.1 = id := by rw [hk]; exact h
      simp [getPromise, updPromise, hk, hne, ih, h, hik]
    · by_cases hid : kv.1 = id
      · simp [getPromise, updPromise, hk, hid, hik]
      · simp [getPromise, updPromise, hk, hid, ih]

theorem getPromise_updPromise_self (ps : List (String × CPromise)) (k : String)
    (f : CPromise → CPromise) :
    getPromise (updPromise ps k f) k = (getPromise ps k).map f := by
  induction ps with
  | nil => rfl
  | cons kv rest ih =>
    by_cases hk : kv.1 = k
    · simp [getPromise, updPromise, hk]
    · simp [getPromise, updPromise, hk, ih]

theorem contains_erase_ne (l : List String) (k id : String) (h : k ≠ id) :
    (l.erase k).contains id = l.contains id := by
  induction l with
  | nil => rfl
  | cons a t ih =>
    by_cases ha : a = k
    · subst ha
      have : ¬ id = a := fun hc => h hc.symm
      simp [List.erase_cons, List.contains_cons, this]
    · have hik : id ≠ k := fun hc => h hc.symm
      simp [List.erase_cons, ha, List.contains_cons, List.mem_erase_of_ne hik]

/- Preservation lemmas for the Communicator event machine. -/

theorem commRun_nil (outR : Envelope → HRes) (st : CommState) :
    commRun outR st [] = st := rfl

theorem commRun_cons (outR : Envelope → HRes) (st : CommState) (e : CommEvent)
    (es : List CommEvent) :
    commRun outR st (e :: es) = commRun outR (commStep outR st e).1 es := rfl

theorem commRun_append_single (outR : Envelope → HRes) (st : CommState)
    (es : List CommEvent) (e : CommEvent) :
    commRun outR st (es ++ [e]) = (commStep outR (commRun outR st es) e).1 := by
  simp [commRun, List.foldl_append]

/-- An event that neither is the ask timer of `id` nor carries a reply to
`id` leaves both the promise of `id` and the presence of `id` in the
askMap unchanged. -/
theorem commStep_preserves_other (outR : Envelope → HRes) (st : CommState)
    (e : CommEvent) (id : String)
    (hr : isReplyFor id e = false) (ht : isTimerFor id e = false) :
    getPromise (commStep outR st e).1.promises id = getPromise st.promises id
    ∧ (commStep outR st e).1.askMap.contains id = st.askMap.contains id := by
  cases e with
  | timerFire k =>
      have hk : k ≠ id := by
        simp [isTimerFor] at ht
        exact ht
      simp [commStep, getPromise_updPromise_ne st.promises k id _ hk]
  | deliver env =>
      cases hrep : mget env.metadata "isReplyTo" with
      | none => cases houtr : outR env <;> simp [commStep, hrep, houtr]
      | some v =>
          have hk : keyStr v ≠ id := by
            simp [isReplyFor, hrep] at hr
            exact hr
          have hik : id ≠ keyStr v := fun hc => hk hc.symm
          by_cases hc : keyStr v ∈ st.askMap
          · simp [commStep, hrep, hc,
              getPromise_updPromise_ne st.promises (keyStr v) id _ hk,
              List.mem_erase_of_ne hik]
          · simp [commStep, hrep, hc]

/-- Run-level version of `commStep_preserves_other`. -/
theorem commRun_preserves_other (outR : Envelope → HRes) (es : List CommEvent)
    (st : CommState) (id : String)
    (hr : es.all (fun e => !isReplyFor id e) = true)
    (ht : es.all (fun e => !isTimerFor id e) = true) :
    getPromise (commRun outR st es).promises id = getPromise st.promises id
    ∧ (commRun outR st es).askMap.contains id = st.askMap.contains id := by
  induction es generalizing st with
  | nil => simp [commRun]
  | cons e rest ih =>
      simp only [List.all_cons, Bool.and_eq_true, Bool.not_eq_true'] at hr ht
      have hstep := commStep_preserves_other outR st e id hr.1 ht.1
      have hrest := ih (commStep outR st e).1
        (by simp only [List.all_eq_true] at hr ⊢; exact fun x hx => hr.2 x hx)
        (by simp only [List.all_eq_true] at ht ⊢; exact fun x hx => ht.2 x hx)
      rw [commRun_cons]
      exact ⟨hrest.1.trans hstep.1, hrest.2.trans hstep.2⟩

/-- As long as no reply for `id` is consumed, the promise of `id` is
either still pending with its timeout armed, or already rejected with
the timeout message (after its timer fired). -/
theorem commStep_pending_or_timeout (outR : Envelope → HRes) (st : CommState)
    (e : CommEvent) (id : String) (msg : String)
    (hr : isReplyFor id e = false)
    (h : getPromise st.promises id = some ⟨.pending, true, msg⟩
         ∨ getPromise st.promises id = some ⟨.rejected msg, false, msg⟩) :
    getPromise (commStep outR st e).1.promises id = some ⟨.pending, true, msg⟩
    ∨ getPromise (commStep outR st e).1.promises id = some ⟨.rejected msg, false, msg⟩ := by
  cases e with
  | timerFire k =>
      by_cases hk : k = id
      · subst hk
        have := getPromise_updPromise_self st.promises k CPromise.timerFire
        cases h with
        | inl h1 =>
            right
            simp [commStep, this, h1, CPromise.timerFire]
        | inr h2 =>
            right
            simp [commStep, this, h2, CPromise.timerFire]
      · have := getPromise_updPromise_ne st.promises k id CPromise.timerFire hk
        cases h with
        | inl h1 => left; simp [commStep, this, h1]
        | inr h2 => right; simp [commStep, this, h2]
  | deliver env =>
      have hpres := commStep_preserves_other outR st (.deliver env) id hr rfl
      cases h with
      | inl h1 => left; rw [hpres.1, h1]
      | inr h2 => right; rw [hpres.1, h2]

/-- Run-level version of `commStep_pending_or_timeout`. -/
theorem commRun_pending_or_timeout (outR : Envelope → HRes) (es : List CommEvent)
    (st : CommState) (id : String) (msg : String)
    (hr : es.all (fun e => !isReplyFor id e) = true)
    (h : getPromise st.promises id = some ⟨.pending, true, msg⟩
         ∨ getPromise st.promises id = some ⟨.rejected msg, false, msg⟩) :
    getPromise (commRun outR st es).promises id = some ⟨.pending, true, msg⟩
    ∨ getPromise (commRun outR st es).promises id = some ⟨.rejected msg, false, msg⟩ := by
  induction es generalizing st with
  | nil => simpa [commRun] using h
  | cons e rest ih =>
      simp only [List.all_cons, Bool.and_eq_true, Bool.not_eq_true'] at hr
      rw [commRun_cons]
      exact ih (commStep outR st e).1
        (by simp only [List.all_eq_true] at hr ⊢; exact fun x hx => hr.2 x hx)
        (commStep_pending_or_timeout outR st e id msg hr.1 h)

/- The metadata stamped on a published ask request. -/

theorem mget_askSend_ask (dft add : Metadata) (subj fid : String) :
    mget (sendMetadata dft (askCallMetadata add subj) fid) "ask"
      = some (.bool true) := by
  unfold sendMetadata askCallMetadata
  rw [show dft ++ (add ++ [("ask", MetaVal.bool true), ("subject", MetaVal.str subj)])
        ++ [("messageId", MetaVal.str fid)]
      = ((dft ++ add) ++ [("ask", MetaVal.bool true)])
        ++ ([("subject", MetaVal.str subj)] ++ [("messageId", MetaVal.str fid)]) by
    simp]
  rw [mget_append]
  simp [mget, mget_singleton_append]

theorem mget_askSend_subject (dft add : Metadata) (subj fid : String) :
    mget (sendMetadata dft (askCallMetadata add subj) fid) "subject"
      = some (.str subj) := by
  unfold sendMetadata askCallMetadata
  rw [show dft ++ (add ++ [("ask", MetaVal.bool true), ("subject", MetaVal.str subj)])
        ++ [("messageId", MetaVal.str fid)]
      = (((dft ++ add) ++ [("ask", MetaVal.bool true)])
        ++ [("subject", MetaVal.str subj)]) ++ [("messageId", MetaVal.str fid)] by
    simp]
  rw [mget_append_ne _ _ _ _ (by decide), mget_singleton_append]

theorem mget_askSend_messageId (dft add : Metadata) (subj fid : String) :
    mget (sendMetadata dft (askCallMetadata add subj) fid) "messageId"
      = some (.str fid) := by
  unfold sendMetadata askCallMetadata
  exact mget_singleton_append _ _ _

/-!
Pool Manager (CommunicationsManager.js): middleware registration and the
continuation-passing chain built in start().  A middleware is embedded
by its observable behavior: a function of the listener context and the
`next` continuation, returning the trace of probe events it emits; the
JS line `middlewareChain = middlewareList.map((m, i) => ctx =>
m(ctx, () => middlewareChain[i + 1](ctx)))` becomes the structural
recursion `runChain`, where each element receives the run of the rest
of the list as its continuation.
-/

abbrev Trace := List String

/-- Registration state of the manager:
`rootMiddlewareList` and `specificMiddlewareMap`. -/
structure MwRegistry (α : Type) where
  rootMiddlewareList : List α
  specificMiddlewareMap : List (String × List α)

def MwRegistry.empty (α : Type) : MwRegistry α := ⟨[], []⟩

/-- Lookup `this.specificMiddlewareMap[serviceName] || []` as used in start(). -/
def mwMapGet {α : Type} (m : List (String × List α)) (k : String) : List α :=
  ((m.find? (fun kv => kv.1 = k)).map (fun kv => kv.2)).getD []

/-- The applyMiddleware body for one target name: create the entry if it
is undefined, then push the new middleware at the end. -/
def mwMapAppend {α : Type} (m : List (String × List α)) (k : String)
    (mws : List α) : List (String × List α) :=
  if (m.find? (fun kv => kv.1 = k)).isSome then
    m.map (fun kv => if kv.1 = k then (kv.1, kv.2 ++ mws) else kv)
  else m ++ [(k, mws)]

/-- applyMiddleware called with a scope (two arguments): append to the
per-name chains of every listed target. -/
def applyMiddlewareScoped {α : Type} (st : MwRegistry α) (names : List String)
    (mws : List α) : MwRegistry α :=
  { st with specificMiddlewareMap :=
      names.foldl (fun m n => mwMapAppend m n mws) st.specificMiddlewareMap }

/-- applyMiddleware called without a scope (one argument): append to the
root chain. -/
def applyMiddlewareGlobal {α : Type} (st : MwRegistry α) (mws : List α) :
    MwRegistry α :=
  { st with rootMiddlewareList := st.rootMiddlewareList ++ mws }

/-- The `middlewareList` built in start() for a communicator with a
registered terminal output listener. -/
def effectiveMiddlewareList {α : Type} (st : MwRegistry α) (name : String)
    (terminal : α) : List α :=
  st.rootMiddlewareList ++ mwMapGet st.specificMiddlewareMap name ++ [terminal]

/-- Execution of the composed chain: element `i` runs with the run of
the remainder of the list as its `next` continuation (the closure
`() => middlewareChain[i + 1](ctx)` of the source). -/
def runChain {Ctx : Type} : List (Ctx → (Unit → Trace) → Trace) → Ctx → Trace
  | [], _ => []
  | m :: rest, ctx => m ctx (fun _ => runChain rest ctx)

/-- A wrap-style middleware probe: emits an enter event, awaits the rest
of the chain via next(), then emits an exit event. -/
def wrapMW {Ctx : Type} (lbl : String) : Ctx → (Unit → Trace) → Trace :=
  fun _ next => (("enter:" ++ lbl) :: next ()) ++ ["exit:" ++ lbl]

/-- A terminal handler probe: emits one handle event, never calls next. -/
def termMW {Ctx : Type} (lbl : String) : Ctx → (Unit → Trace) → Trace :=
  fun _ _ => ["handle:" ++ lbl]

/-- The trace of a chain of wrap middlewares around a terminal handler:
enters in list order, then the handler, then exits in reverse order. -/
theorem runChain_wraps {Ctx : Type} (ls : List String) (hlbl : String) (ctx : Ctx) :
    runChain (ls.map wrapMW ++ [termMW hlbl]) ctx
      = (ls.map (fun l => "enter:" ++ l)) ++ ("handle:" ++ hlbl)
          :: (ls.reverse.map (fun l => "exit:" ++ l)) := by
  induction ls with
  | nil => simp [runChain, termMW]
  | cons l rest ih =>
      simp [runChain, wrapMW, ih, List.map_append]

/-!
Communicator.verifyStart (index.js) and the pre-start blocking of send
and ask.  `flags k` is the value of `this.isCommunicatorStarted` at the
k-th poll (poll 0 being the synchronous check on entry); verifyStart
completes at the first poll that observes the flag set, and never
completes while the flag stays unset.  The fuel argument bounds how many
polls the model inspects; `none` means still waiting after that many
polls (the JS promise simply has not resolved yet).
-/

def verifyStartWait (flags : Nat → Bool) : Nat → Option Nat
  | 0 => none
  | n + 1 =>
      if flags 0 then some 0
      else (verifyStartWait (fun k => flags (k + 1)) n).map (· + 1)

theorem verifyStartWait_completes (flags : Nat → Bool) (n : Nat)
    (h : flags n = true) :
    ∃ k, k ≤ n ∧ verifyStartWait flags (n + 1) = some k ∧ flags k = true
      ∧ ∀ j, j < k → flags j = false := by
  induction n generalizing flags with
  | zero =>
      refine ⟨0, le_refl 0, ?_, h, fun j hj => absurd hj (Nat.not_lt_zero j)⟩
      simp [verifyStartWait, h]
  | succ n ih =>
      by_cases h0 : flags 0 = true
      · exact ⟨0, Nat.zero_le _, by simp [verifyStartWait, h0], h0,
          fun j hj => absurd hj (Nat.not_lt_zero j)⟩
      · obtain ⟨k, hk, hw, hfk, hbelow⟩ := ih (fun k => flags (k + 1)) h
        refine ⟨k + 1, Nat.succ_le_succ hk, ?_, hfk, ?_⟩
        · have hunfold : verifyStartWait flags (n + 1 + 1)
              = if flags 0 then some 0
                else (verifyStartWait (fun k => flags (k + 1)) (n + 1)).map (· + 1) := rfl
          rw [hunfold, if_neg h0, hw]
          rfl
        · intro j hj
          cases j with
          | zero => simpa using h0
          | succ j => exact hbelow j (Nat.lt_of_succ_lt_succ hj)

/-- Communicator.send including its pre-start behavior: the disabled
input channel throws synchronously; otherwise the call first awaits
verifyStart and only then publishes.  The successful result carries the
poll index at which verifyStart completed, the published envelope and
the returned messageId; `Option.none` is a call still blocked in
verifyStart. -/
def communicatorSendOp (isInputEnabled : Bool) (flags : Nat → Bool) (fuel : Nat)
    (defaults additional : Metadata) (freshId : String) (d : MetaVal) :
    Except String (Option (Nat × Envelope × String)) :=
  if !isInputEnabled then
    .error "Service input channel is disabled, can not send message"
  else
    match verifyStartWait flags fuel with
    | none => .ok none
    | some k => .ok (some (k, communicatorSendEnvelope defaults additional freshId d))

/-- Communicator.ask including its pre-start behavior: it performs send
(which blocks in verifyStart until started) and then registers the
pending entry.  The successful result carries the poll index and the
state/envelope pair produced by `askIssue`. -/
def communicatorAskOp (isInputEnabled : Bool) (flags : Nat → Bool) (fuel : Nat)
    (defaults additional : Metadata) (subject : String) (d : MetaVal)
    (freshId : String) (askTimeout : Nat) (st : CommState) :
    Except String (Option (Nat × CommState × Envelope)) :=
  match communicatorSendOp isInputEnabled flags fuel defaults
      (askCallMetadata additional subject) freshId d with
  | .error e => .error e
  | .ok none => .ok none
  | .ok (some (k, _, _)) =>
      .ok (some (k, askIssue defaults additional subject d freshId askTimeout st))

/-!
Claim theorems.
-/

/-- Claim C7: for every (namespace, name) identity, the Owner (Service)
and the Peer (Communicator) independently compute identical queue names,
namely namespace:name:input and namespace:name:output; both are pure
functions of the identity alone. -/
theorem claim_C7_queue_name_symmetry (nspace name : String) :
    serviceInputQueueName nspace name = nspace ++ ":" ++ name ++ ":input"
    ∧ serviceOutputQueueName nspace name = nspace ++ ":" ++ name ++ ":output"
    ∧ communicatorInputQueueName nspace name = serviceInputQueueName nspace name
    ∧ communicatorOutputQueueName nspace name = serviceOutputQueueName nspace name :=
  ⟨rfl, rfl, rfl, rfl⟩

/-- Claim C10: Communicator.send stamps a freshly generated 10-character
messageId that overrides both the endpoint default metadata and any
caller-supplied messageId, and returns exactly that identifier.  The
hypothesis is the contract of the external nanoid(10) call. -/
theorem claim_C10_send_stamps_fresh_messageId
    (defaults additional : Metadata) (freshId : String) (d : MetaVal)
    (hlen : freshId.length = 10) :
    mget (communicatorSendEnvelope defaults additional freshId d).1.metadata "messageId"
        = some (.str freshId)
    ∧ (communicatorSendEnvelope defaults additional freshId d).2 = freshId
    ∧ (∃ s, mget (communicatorSendEnvelope defaults additional freshId d).1.metadata
          "messageId" = some (.str s) ∧ s.length = 10) := by
  refine ⟨?_, rfl, freshId, ?_, hlen⟩
  · exact mget_singleton_append (defaults ++ additional) _ _
  · exact mget_singleton_append (defaults ++ additional) _ _

/-- Claim C10 witness: with an endpoint default messageId and a
caller-supplied messageId both present, the freshly generated identifier
wins and is returned. -/
theorem claim_C10_witness :
    ("q8zX2mKw1p" : String).length = 10
    ∧ (mget (communicatorSendEnvelope [("messageId", .str "default-id")]
          [("messageId", .str "caller-id")] "q8zX2mKw1p" (.num 0)).1.metadata "messageId"
        = some (.str "q8zX2mKw1p")
      ∧ (communicatorSendEnvelope [("messageId", .str "default-id")]
          [("messageId", .str "caller-id")] "q8zX2mKw1p" (.num 0)).2 = "q8zX2mKw1p"
      ∧ (∃ s, mget (communicatorSendEnvelope [("messageId", .str "default-id")]
          [("messageId", .str "caller-id")] "q8zX2mKw1p" (.num 0)).1.metadata
            "messageId" = some (.str s) ∧ s.length = 10)) :=
  ⟨by decide,
   claim_C10_send_stamps_fresh_messageId [("messageId", .str "default-id")]
     [("messageId", .str "caller-id")] "q8zX2mKw1p" (.num 0) (by decide)⟩

/-- Claim C9 (code bug evidence): the Communicator constructor guards
shouldDiscardMessages with the input flag although the output queue is
the channel this endpoint consumes (and the only place the flag is used)
and its own error message speaks of the output channel.  First conjunct:
construction succeeds although the consuming output channel is disabled
while shouldDiscardMessages is set.  Second conjunct: construction
throws although the consuming output channel is enabled. -/
theorem claim_C9_discard_guard_checks_wrong_channel :
    communicatorConstruct
      { targetServiceName := some "svc", hasRabbitClient := false,
        hasRabbitOptions := true, useAsk := false, isInputEnabled := true,
        isOutputEnabled := false, shouldDiscardMessages := true, nspace := "ns" }
      = .ok { isInputEnabled := true, isOutputEnabled := false,
              shouldDiscardMessages := true,
              inputQueueName := "ns:svc:input", outputQueueName := "ns:svc:output" }
    ∧ communicatorConstruct
      { targetServiceName := some "svc", hasRabbitClient := false,
        hasRabbitOptions := true, useAsk := false, isInputEnabled := false,
        isOutputEnabled := true, shouldDiscardMessages := true, nspace := "ns" }
      = .error "no point to set shouldDiscardMessages if output is disabled" :=
  ⟨rfl, rfl⟩

/-- Claim C3 (code bug evidence): on the Owner input queue, a message
dispatched to a registered ask handler that completes without throwing
is neither acknowledged nor negatively acknowledged (the callback
returns before the ack), while the same successful completion on the
general-handler path is acknowledged. -/
theorem claim_C3_ask_path_skips_ack :
    serviceConsume ⟨["greet"], true, false⟩ (fun _ => .ok) .ok
        [("ask", .bool true), ("subject", .str "greet")]
      = (.askHandler "greet", .noAction)
    ∧ serviceConsume ⟨["greet"], true, false⟩ (fun _ => .ok) .ok
        [("kind", .str "plain")]
      = (.inputHandler, .ack) := by
  constructor <;> decide

/-- Claim C4 counterexample: an ask message whose subject matches no
registered ask handler does not invoke the general input handler (as the
claim states); the callback throws and the message is negatively
acknowledged. -/
theorem claim_C4_counterexample :
    (serviceConsume ⟨[], true, false⟩ (fun _ => .ok) .ok
        [("ask", .bool true), ("subject", .str "greet")]).1 ≠ Dispatched.inputHandler
    ∧ serviceConsume ⟨[], true, false⟩ (fun _ => .ok) .ok
        [("ask", .bool true), ("subject", .str "greet")]
      = (.noHandler, .nack true) := by
  constructor <;> decide

/-- Claim C4 (amended): in the Service input consume callback, a
subject-keyed ask handler is invoked exactly when metadata.ask is truthy
and metadata.subject is defined and its key matches a registered
subject; an ask message whose defined subject matches no registered
handler invokes no handler at all and is negatively acknowledged; the
general input handler is invoked exactly when metadata.ask is falsy or
metadata.subject is undefined. -/
theorem claim_C4_amended_dispatch (st : ServiceState) (ar : String → HRes)
    (ir : HRes) (meta : Metadata) (h : st.hasInputListener = true) :
    (∀ v, isTruthy (mget meta "ask") = true → mget meta "subject" = some v →
       st.askSubjects.contains (keyStr v) = true →
       (serviceConsume st ar ir meta).1 = .askHandler (keyStr v))
    ∧ (∀ v, isTruthy (mget meta "ask") = true → mget meta "subject" = some v →
       st.askSubjects.contains (keyStr v) = false →
       serviceConsume st ar ir meta
         = (.noHandler, .nack (!st.shouldDiscardMessages)))
    ∧ (¬(isTruthy (mget meta "ask") = true ∧ (mget meta "subject").isSome = true) →
       (serviceConsume st ar ir meta).1 = .inputHandler) := by
  refine ⟨?_, ?_, ?_⟩
  · intro v ha hs hreg
    simp only [serviceConsume, ha, hs, Option.isSome_some, Bool.and_self, if_true,
      Option.getD_some]
    simp only [hreg, if_true]
    cases ar (keyStr v) <;> simp
  · intro v ha hs hreg
    simp only [serviceConsume, ha, hs, Option.isSome_some, Bool.and_self, if_true,
      Option.getD_some]
    simp [hreg]
    intro hmem
    exact absurd hmem (by simpa using hreg)
  · intro hcond
    have hb : (isTruthy (mget meta "ask") && (mget meta "subject").isSome) = false := by
      cases hA : isTruthy (mget meta "ask") <;>
        cases hS : (mget meta "subject").isSome <;> simp_all
    simp only [serviceConsume, hb, Bool.false_eq_true, if_false, h, if_true]
    cases ir <;> simp

/-- Claim C4 amended witness: a plain message goes to the general input
handler. -/
theorem claim_C4_amended_witness :
    (⟨["greet"], true, false⟩ : ServiceState).hasInputListener = true
    ∧ (serviceConsume ⟨["greet"], true, false⟩ (fun _ => .ok) .ok
        [("kind", .str "plain")]).1 = .inputHandler :=
  ⟨rfl,
   (claim_C4_amended_dispatch ⟨["greet"], true, false⟩ (fun _ => .ok) .ok
      [("kind", .str "plain")] rfl).2.2 (by decide)⟩

/-- Claim C5: on both the Owner input consumer and the Peer output
consumer, a failing handler invocation leads to a negative
acknowledgment with requeue equal to the negation of
shouldDiscardMessages, and every negative acknowledgment either side
ever emits carries exactly that requeue flag (discard and requeue are
the only failure outcomes). -/
theorem claim_C5_nack_requeue_policy (st : ServiceState) (ar : String → HRes)
    (ir : HRes) (meta : Metadata) (outR : Envelope → HRes) (cst : CommState)
    (env : Envelope) :
    (∀ r, (serviceConsume st ar ir meta).2 = .nack r →
       r = !st.shouldDiscardMessages)
    ∧ (∀ v, isTruthy (mget meta "ask") = true → mget meta "subject" = some v →
       st.askSubjects.contains (keyStr v) = true → ar (keyStr v) = .err →
       (serviceConsume st ar ir meta).2 = .nack (!st.shouldDiscardMessages))
    ∧ (¬(isTruthy (mget meta "ask") = true ∧ (mget meta "subject").isSome = true) →
       st.hasInputListener = true → ir = .err →
       (serviceConsume st ar ir meta).2 = .nack (!st.shouldDiscardMessages))
    ∧ (∀ r, (commStep outR cst (.deliver env)).2 = .nack r →
       r = !cst.shouldDiscardMessages)
    ∧ (mget env.metadata "isReplyTo" = none → outR env = .err →
       (commStep outR cst (.deliver env)).2 = .nack (!cst.shouldDiscardMessages)) := by
  refine ⟨?_, ?_, ?_, ?_, ?_⟩
  · intro r hr
    by_cases hb : (isTruthy (mget meta "ask") && (mget meta "subject").isSome) = true
    · by_cases hreg : st.askSubjects.contains
          (keyStr ((mget meta "subject").getD (.str ""))) = true
      · cases har : ar (keyStr ((mget meta "subject").getD (.str ""))) <;>
          simp only [serviceConsume, hb, if_true] at hr <;>
          simp only [har] at hr <;> simp_all
      · simp only [serviceConsume, hb, if_true] at hr
        simp only [Bool.not_eq_true] at hreg
        simp_all
    · simp only [Bool.not_eq_true] at hb
      by_cases hl : st.hasInputListener = true
      · cases ir <;> simp only [serviceConsume, hb, Bool.false_eq_true, if_false,
          hl, if_true] at hr <;> simp_all
      · simp only [Bool.not_eq_true] at hl
        simp only [serviceConsume, hb, Bool.false_eq_true, if_false, hl] at hr
        simp_all
  · intro v ha hs hreg har
    simp only [serviceConsume, ha, hs, Option.isSome_some, Bool.and_self, if_true,
      Option.getD_some, hreg, har]
  · intro hcond hl hir
    have hb : (isTruthy (mget meta "ask") && (mget meta "subject").isSome) = false := by
      cases hA : isTruthy (mget meta "ask") <;>
        cases hS : (mget meta "subject").isSome <;> simp_all
    simp [serviceConsume, hb, hl, hir]
  · intro r hr
    cases hrep : mget env.metadata "isReplyTo" with
    | none =>
        cases houtr : outR env <;> simp_all [commStep]
    | some v =>
        by_cases hc : keyStr v ∈ cst.askMap <;> simp_all [commStep]
  · intro hrep houtr
    simp [commStep, hrep, houtr]

/-- Claim C5 witness: a failing general handler on the owner input queue
and a failing output listener on the peer output queue are both nacked
with requeue = true when shouldDiscardMessages is false. -/
theorem claim_C5_witness :
    ((serviceConsume ⟨[], true, false⟩ (fun _ => .ok) .err
        [("kind", .str "plain")]).2 = .nack (!false)
    ∧ (commStep (fun _ => .err) (commInit false)
        (.deliver ⟨[("kind", .str "plain")], .num 0⟩)).2 = .nack (!false)) :=
  ⟨(claim_C5_nack_requeue_policy ⟨[], true, false⟩ (fun _ => .ok) .err
      [("kind", .str "plain")] (fun _ => .err) (commInit false)
      ⟨[("kind", .str "plain")], .num 0⟩).2.2.1 (by decide) rfl rfl,
   (claim_C5_nack_requeue_policy ⟨[], true, false⟩ (fun _ => .ok) .err
      [("kind", .str "plain")] (fun _ => .err) (commInit false)
      ⟨[("kind", .str "plain")], .num 0⟩).2.2.2.2 (by decide) rfl⟩

/-- Claim C6: with global middleware G1, G2 registered in that order,
middleware S1, S2 scoped to peer P, and terminal handler H, the chain
built at start() for P is [G1, G2, S1, S2, H]; running it invokes G1,
G2, S1, S2, H in that order on the forward pass, each next() suspending
its caller until the remainder of the chain completes, and trailing
logic after next() runs in reverse completion order. -/
theorem claim_C6_middleware_chain_order {Ctx : Type} (ctx : Ctx)
    (g1 g2 s1 s2 hl p : String) :
    effectiveMiddlewareList
        (applyMiddlewareScoped
          (applyMiddlewareGlobal (MwRegistry.empty (Ctx → (Unit → Trace) → Trace))
            [wrapMW g1, wrapMW g2])
          [p] [wrapMW s1, wrapMW s2])
        p (termMW hl)
      = [wrapMW g1, wrapMW g2, wrapMW s1, wrapMW s2, termMW hl]
    ∧ runChain
        (effectiveMiddlewareList
          (applyMiddlewareScoped
            (applyMiddlewareGlobal (MwRegistry.empty (Ctx → (Unit → Trace) → Trace))
              [wrapMW g1, wrapMW g2])
            [p] [wrapMW s1, wrapMW s2])
          p (termMW hl)) ctx
      = ["enter:" ++ g1, "enter:" ++ g2, "enter:" ++ s1, "enter:" ++ s2,
         "handle:" ++ hl, "exit:" ++ s2, "exit:" ++ s1, "exit:" ++ g2,
         "exit:" ++ g1] := by
  have hlist : effectiveMiddlewareList
      (applyMiddlewareScoped
        (applyMiddlewareGlobal (MwRegistry.empty (Ctx → (Unit → Trace) → Trace))
          [wrapMW g1, wrapMW g2])
        [p] [wrapMW s1, wrapMW s2])
      p (termMW hl)
      = [wrapMW g1, wrapMW g2, wrapMW s1, wrapMW s2, termMW hl] := by
    have hget : mwMapGet [(p, [wrapMW s1, wrapMW s2])] p
        = ([wrapMW s1, wrapMW s2] : List (Ctx → (Unit → Trace) → Trace)) := by
      simp [mwMapGet, List.find?_cons]
    simp only [effectiveMiddlewareList, applyMiddlewareScoped, applyMiddlewareGlobal,
      MwRegistry.empty, List.foldl_cons, List.foldl_nil]
    rw [show mwMapAppend ([] : List (String × List (Ctx → (Unit → Trace) → Trace))) p
          [wrapMW s1, wrapMW s2] = [(p, [wrapMW s1, wrapMW s2])] from rfl]
    rw [hget]
    simp
  refine ⟨hlist, ?_⟩
  rw [hlist]
  have := runChain_wraps [g1, g2, s1, s2] hl ctx
  simpa using this

/-- Claim C8: a Peer send or ask issued before start() has completed
does not fail: with the input channel enabled it blocks polling the
started flag, completes at the first poll that observes the flag set,
and then proceeds to publish (ask additionally registering its pending
entry); a call issued after start (flag already set at poll 0) proceeds
without waiting. -/
theorem claim_C8_send_ask_block_until_started (flags : Nat → Bool) (n : Nat)
    (defaults additional : Metadata) (subject freshId : String) (d : MetaVal)
    (askTimeout : Nat) (st : CommState) (hstart : flags n = true) :
    (∃ k, k ≤ n ∧ flags k = true ∧ (∀ j, j < k → flags j = false)
      ∧ communicatorSendOp true flags (n + 1) defaults additional freshId d
          = .ok (some (k, communicatorSendEnvelope defaults additional freshId d))
      ∧ communicatorAskOp true flags (n + 1) defaults additional subject d
          freshId askTimeout st
          = .ok (some (k, askIssue defaults additional subject d freshId askTimeout st)))
    ∧ (flags 0 = true →
        communicatorSendOp true flags (n + 1) defaults additional freshId d
          = .ok (some (0, communicatorSendEnvelope defaults additional freshId d))) := by
  obtain ⟨k, hk, hw, hfk, hbelow⟩ := verifyStartWait_completes flags n hstart
  constructor
  · refine ⟨k, hk, hfk, hbelow, ?_, ?_⟩
    · simp [communicatorSendOp, hw]
    · simp [communicatorAskOp, communicatorSendOp, hw]
  · intro h0
    have : verifyStartWait flags (n + 1) = some 0 := by
      cases n with
      | zero => simp [verifyStartWait, h0]
      | succ m => simp [verifyStartWait, h0]
    simp [communicatorSendOp, this]

/-- Claim C8 witness: with the started flag first observed set at poll 2,
both send and ask complete at poll 2 and publish. -/
theorem claim_C8_witness :
    (fun j => decide (2 ≤ j)) 2 = true
    ∧ ((∃ k, k ≤ 2 ∧ (fun j => decide (2 ≤ j)) k = true
        ∧ (∀ j, j < k → (fun j => decide (2 ≤ j)) j = false)
        ∧ communicatorSendOp true (fun j => decide (2 ≤ j)) 3 [] [] "m1" (.num 7)
            = .ok (some (k, communicatorSendEnvelope [] [] "m1" (.num 7)))
        ∧ communicatorAskOp true (fun j => decide (2 ≤ j)) 3 [] [] "subj" (.num 7)
            "m1" 5 (commInit false)
            = .ok (some (k, askIssue [] [] "subj" (.num 7) "m1" 5 (commInit false))))
      ∧ ((fun j => decide (2 ≤ j)) 0 = true →
          communicatorSendOp true (fun j => decide (2 ≤ j)) 3 [] [] "m1" (.num 7)
            = .ok (some (0, communicatorSendEnvelope [] [] "m1" (.num 7))))) :=
  ⟨by decide,
   claim_C8_send_ask_block_until_started (fun j => decide (2 ≤ j)) 2 [] []
     "subj" "m1" (.num 7) 5 (commInit false) (by decide)⟩

/-- Claim C1: Communicator.ask publishes a request whose metadata
carries a truthy ask flag, the given subject and the generated
messageId; it registers a pending entry under that messageId with the
timeout message armed; its future resolves with the matching reply
envelope (payload plus metadata) when a reply whose isReplyTo equals
the messageId is consumed before the timer fires, and is rejected with
the timeout-kind error when the timer fires with no matching reply
consumed.  `es` is any interleaving of unrelated event-loop callbacks
before the deciding event. -/
theorem claim_C1_ask_publish_and_settle
    (defaults additional : Metadata) (subject : String) (d : MetaVal)
    (freshId : String) (askTimeout : Nat) (outR : Envelope → HRes)
    (es : List CommEvent) (renv : Envelope) (discard : Bool)
    (hreply : mget renv.metadata "isReplyTo" = some (.str freshId))
    (hesReply : es.all (fun e => !isReplyFor freshId e) = true)
    (hesTimer : es.all (fun e => !isTimerFor freshId e) = true) :
    isTruthy (mget (askIssue defaults additional subject d freshId askTimeout
        (commInit discard)).2.metadata "ask") = true
    ∧ mget (askIssue defaults additional subject d freshId askTimeout
        (commInit discard)).2.metadata "subject" = some (.str subject)
    ∧ mget (askIssue defaults additional subject d freshId askTimeout
        (commInit discard)).2.metadata "messageId" = some (.str freshId)
    ∧ (askIssue defaults additional subject d freshId askTimeout
        (commInit discard)).1.askMap.contains freshId = true
    ∧ getPromise (askIssue defaults additional subject d freshId askTimeout
        (commInit discard)).1.promises freshId
        = some ⟨.pending, true, askTimeoutMessage askTimeout⟩
    ∧ (getPromise (commRun outR (askIssue defaults additional subject d freshId
          askTimeout (commInit discard)).1 (es ++ [.deliver renv])).promises
        freshId).map CPromise.state = some (.resolved renv)
    ∧ (getPromise (commRun outR (askIssue defaults additional subject d freshId
          askTimeout (commInit discard)).1 (es ++ [.timerFire freshId])).promises
        freshId).map CPromise.state
        = some (.rejected (askTimeoutMessage askTimeout)) := by
  have hmeta : (askIssue defaults additional subject d freshId askTimeout
      (commInit discard)).2.metadata
      = sendMetadata defaults (askCallMetadata additional subject) freshId := rfl
  have hp0 : getPromise (askIssue defaults additional subject d freshId askTimeout
      (commInit discard)).1.promises freshId
      = some ⟨.pending, true, askTimeoutMessage askTimeout⟩ := by
    simp [askIssue, commInit, getPromise, CPromise.new, CPromise.setResolveTimeout,
      communicatorSendEnvelope]
  have hm0 : (askIssue defaults additional subject d freshId askTimeout
      (commInit discard)).1.askMap.contains freshId = true := by
    simp [askIssue, commInit]
  refine ⟨?_, ?_, ?_, hm0, hp0, ?_, ?_⟩
  · rw [hmeta, mget_askSend_ask]
    rfl
  · rw [hmeta]
    exact mget_askSend_subject _ _ _ _
  · rw [hmeta]
    exact mget_askSend_messageId _ _ _ _
  · have hmid := commRun_preserves_other outR es
      (askIssue defaults additional subject d freshId askTimeout (commInit discard)).1
      freshId hesReply hesTimer
    rw [commRun_append_single]
    have hcont : (commRun outR (askIssue defaults additional subject d
        freshId askTimeout (commInit discard)).1 es).askMap.contains freshId = true :=
      hmid.2.trans hm0
    have hpmid : getPromise (commRun outR (askIssue defaults additional subject d
        freshId askTimeout (commInit discard)).1 es).promises freshId
        = some ⟨.pending, true, askTimeoutMessage askTimeout⟩ := hmid.1.trans hp0
    simp only [commStep, hreply, keyStr, hcont, if_true]
    rw [getPromise_updPromise_self, hpmid]
    simp [CPromise.presolve]
  · have hdisj := commRun_pending_or_timeout outR es
      (askIssue defaults additional subject d freshId askTimeout (commInit discard)).1
      freshId (askTimeoutMessage askTimeout) hesReply (Or.inl hp0)
    rw [commRun_append_single]
    simp only [commStep]
    rw [getPromise_updPromise_self]
    cases hdisj with
    | inl h1 =>
        rw [h1]
        simp [CPromise.timerFire]
    | inr h2 =>
        rw [h2]
        simp [CPromise.timerFire]

/-- Claim C1 witness: a concrete ask with askTimeout 5 and messageId m1;
the matching reply resolves the future, the timer alone rejects it. -/
theorem claim_C1_witness :
    mget (⟨[("isReplyTo", MetaVal.str "m1")], MetaVal.num 2⟩ : Envelope).metadata
        "isReplyTo" = some (.str "m1")
    ∧ (isTruthy (mget (askIssue [] [] "subj" (.num 1) "m1" 5
          (commInit false)).2.metadata "ask") = true
      ∧ mget (askIssue [] [] "subj" (.num 1) "m1" 5
          (commInit false)).2.metadata "subject" = some (.str "subj")
      ∧ mget (askIssue [] [] "subj" (.num 1) "m1" 5
          (commInit false)).2.metadata "messageId" = some (.str "m1")
      ∧ (askIssue [] [] "subj" (.num 1) "m1" 5
          (commInit false)).1.askMap.contains "m1" = true
      ∧ getPromise (askIssue [] [] "subj" (.num 1) "m1" 5
          (commInit false)).1.promises "m1"
          = some ⟨.pending, true, askTimeoutMessage 5⟩
      ∧ (getPromise (commRun (fun _ => .ok) (askIssue [] [] "subj" (.num 1) "m1" 5
            (commInit false)).1
            ([] ++ [.deliver ⟨[("isReplyTo", MetaVal.str "m1")], MetaVal.num 2⟩])).promises
          "m1").map CPromise.state
          = some (.resolved ⟨[("isReplyTo", MetaVal.str "m1")], MetaVal.num 2⟩)
      ∧ (getPromise (commRun (fun _ => .ok) (askIssue [] [] "subj" (.num 1) "m1" 5
            (commInit false)).1 ([] ++ [.timerFire "m1"])).promises
          "m1").map CPromise.state = some (.rejected (askTimeoutMessage 5))) :=
  ⟨by decide,
   claim_C1_ask_publish_and_settle [] [] "subj" (.num 1) "m1" 5 (fun _ => .ok)
     [] ⟨[("isReplyTo", MetaVal.str "m1")], MetaVal.num 2⟩ false (by decide) rfl rfl⟩

/-- Claim C2 counterexample: when the ask timeout fires first, the
future settles (rejected with the timeout error) but the entry is still
present in the pending-ask table, refuting that an entry whose timeout
has fired is no longer present. -/
theorem claim_C2_counterexample :
    (getPromise ((commStep (fun _ => .ok)
        (askIssue [] [] "subj" (.num 1) "m1" 5 (commInit false)).1
        (.timerFire "m1")).1).promises "m1").map CPromise.state
      = some (.rejected (askTimeoutMessage 5))
    ∧ ((commStep (fun _ => .ok)
        (askIssue [] [] "subj" (.num 1) "m1" 5 (commInit false)).1
        (.timerFire "m1")).1).askMap.contains "m1" = true := by
  constructor <;> decide

/-- Claim C2 (amended): every pending-ask future settles at most once —
a settled promise is never changed by any later event, settling disarms
the pending timer, and the losing event of the race is a no-op on the
promise state; a matching reply removes the entry from the table, but
timeout firing does not: the entry stays in the askMap until a matching
(late) reply arrives. -/
theorem claim_C2_amended_single_settle (outR : Envelope → HRes) :
    (∀ st e id p, getPromise st.promises id = some p → p.state ≠ .pending →
       (getPromise (commStep outR st e).1.promises id).map CPromise.state
         = some p.state)
    ∧ (∀ (q : CPromise) (v : Envelope), (q.presolve v).timerArmed = false
        ∧ q.timerFire.timerArmed = false)
    ∧ (∀ (q : CPromise) (v : Envelope), q.state ≠ .pending →
        (q.presolve v).state = q.state ∧ q.timerFire.state = q.state)
    ∧ (∀ st env v k, mget env.metadata "isReplyTo" = some v → keyStr v = k →
        st.askMap.contains k = true → st.askMap.Nodup →
        (commStep outR st (.deliver env)).1.askMap.contains k = false)
    ∧ (∀ st id2, (commStep outR st (.timerFire id2)).1.askMap = st.askMap) := by
  refine ⟨?_, ?_, ?_, ?_, ?_⟩
  · intro st e id p hp hset
    have hstate : ∀ f : CPromise → CPromise, f p = p ∨ (f p).state = p.state →
        (getPromise (updPromise st.promises id f) id).map CPromise.state
          = some p.state := by
      intro f hf
      rw [getPromise_updPromise_self, hp]
      cases hf with
      | inl h => simp [h]
      | inr h => simp [h]
    cases e with
    | timerFire k =>
        by_cases hk : k = id
        · subst hk
          simp only [commStep]
          apply hstate
          right
          by_cases ha : p.timerArmed <;>
            cases hs : p.state <;> simp_all [CPromise.timerFire]
        · simp only [commStep]
          rw [getPromise_updPromise_ne _ _ _ _ hk, hp]
          rfl
    | deliver env =>
        cases hrep : mget env.metadata "isReplyTo" with
        | none =>
            cases houtr : outR env <;> simp [commStep, hrep, houtr, hp]
        | some v =>
            simp only [commStep, hrep]
            by_cases hc : st.askMap.contains (keyStr v) = true
            · rw [if_pos hc]
              dsimp only
              by_cases hk : keyStr v = id
              · subst hk
                apply hstate
                right
                cases hs : p.state <;> simp_all [CPromise.presolve]
              · rw [getPromise_updPromise_ne _ _ _ _ hk, hp]
                rfl
            · rw [if_neg hc]
              dsimp only
              rw [hp]
              rfl
  · intro q v
    constructor
    · rfl
    · by_cases ha : q.timerArmed <;> simp [CPromise.timerFire, ha]
  · intro q v hset
    constructor
    · cases hs : q.state <;> simp_all [CPromise.presolve]
    · by_cases ha : q.timerArmed <;>
        cases hs : q.state <;> simp_all [CPromise.timerFire]
  · intro st env v k hrep hkey hc hnd
    subst hkey
    have hcm : keyStr v ∈ st.askMap := by simpa using hc
    simp only [commStep, hrep]
    rw [if_pos hc]
    dsimp only
    simp [List.Nodup.mem_erase_iff hnd]
  · intro st id2
    rfl

/-- Claim C2 amended witness: on a concrete timed-out ask, a second
timer event leaves the rejected state unchanged and the timeout has not
removed the entry; the table is unchanged by timer events. -/
theorem claim_C2_amended_witness :
    getPromise ((commStep (fun _ => .ok)
        (askIssue [] [] "subj" (.num 1) "m1" 5 (commInit false)).1
        (.timerFire "m1")).1).promises "m1"
      = some ⟨.rejected (askTimeoutMessage 5), false, askTimeoutMessage 5⟩
    ∧ (PState.rejected (askTimeoutMessage 5) ≠ PState.pending)
    ∧ (getPromise (commStep (fun _ => .ok)
        ((commStep (fun _ => .ok)
          (askIssue [] [] "subj" (.num 1) "m1" 5 (commInit false)).1
          (.timerFire "m1")).1)
        (.timerFire "m1")).1.promises "m1").map CPromise.state
      = some (PState.rejected (askTimeoutMessage 5))
    ∧ (commStep (fun _ => .ok)
        ((commStep (fun _ => .ok)
          (askIssue [] [] "subj" (.num 1) "m1" 5 (commInit false)).1
          (.timerFire "m1")).1)
        (.timerFire "m1")).1.askMap
      = ((commStep (fun _ => .ok)
          (askIssue [] [] "subj" (.num 1) "m1" 5 (commInit false)).1
          (.timerFire "m1")).1).askMap :=
  ⟨by decide, by decide,
   (claim_C2_amended_single_settle (fun _ => .ok)).1
     ((commStep (fun _ => .ok)
        (askIssue [] [] "subj" (.num 1) "m1" 5 (commInit false)).1
        (.timerFire "m1")).1)
     (.timerFire "m1") "m1"
     ⟨.rejected (askTimeoutMessage 5), false, askTimeoutMessage 5⟩
     (by decide) (by decide),
   (claim_C2_amended_single_settle (fun _ => .ok)).2.2.2.2
     ((commStep (fun _ => .ok)
        (askIssue [] [] "subj" (.num 1) "m1" 5 (commInit false)).1
        (.timerFire "m1")).1) "m1"⟩
